import Mathlib

/-!
Formal model of the `sitn-gsr-search` web component
(`src/sitn-gsr-search.ts`), a shallow embedding in Lean 4.

Strings are modelled as `List Char`.  JavaScript's `String.prototype.trim`,
`String.prototype.split` (with a non-empty string separator) and the
`textContent`/`innerHTML` escaping round trip are given executable
definitions below.  The component's event-driven behaviour is modelled as a
deterministic step function over an explicit machine state: the adversary
(user + network scheduler) picks the event sequence, and each network
response event names the request generation it settles, which models the
single-threaded event loop with run-to-completion handlers and arbitrary
network reordering.
-/

/-!
Timed model of the debounce logic of `handleSearchInput` (the timer part
of lines 104–122), refined with explicit clock values so that the 300 ms
window is expressible.  `pending = some (d, q)` means a timer armed to
call `performSearch q` at deadline `d`; `fired` collects the queries for
which the timer actually expired (each expiry issues exactly one search
network call). -/

abbrev Str := List Char

def str (s : String) : Str := s.toList

/-- JS `value.trim()`: drop leading and trailing whitespace. -/
def jsTrim (l : Str) : Str :=
  ((l.dropWhile Char.isWhitespace).reverse.dropWhile Char.isWhitespace).reverse

/-- `p` is a prefix of `l` (character-wise comparison). -/
def pfx : Str → Str → Bool
  | [], _ => true
  | _ :: _, [] => false
  | a :: as, b :: bs => a == b && pfx as bs

/-- `p` is a suffix of `l`. -/
def sfx (p l : Str) : Bool := pfx p.reverse l.reverse

/-- First-occurrence splitter underlying JS `s.split(sep)` for non-empty
`sep`: returns the segment before the first occurrence of `sep` and, when
an occurrence exists, the remainder after it. -/
def splitFirst (sep : Str) : Str → Str × Option Str
  | [] => ([], none)
  | c :: cs =>
    if pfx sep (c :: cs) then ([], some ((c :: cs).drop sep.length))
    else
      let r := splitFirst sep cs
      (c :: r.1, r.2)

/-- `sep` occurs somewhere in `s` (as a contiguous run). -/
def hasOcc (sep s : Str) : Bool := ((splitFirst sep s).2).isSome

/-- The fixed address delimiter `" - "` from `displayOfficeInfo`. -/
def delim : Str := str " - "

/-- `properties.adresse.split(" - ")[0] || properties.adresse`. -/
def adresseLine (a : Str) : Str :=
  let p0 := (splitFirst delim a).1
  if p0 = [] then a else p0

/-- `properties.adresse.split(" - ")[1] || ""`. -/
def adresseLoc (a : Str) : Str :=
  match (splitFirst delim a).2 with
  | none => []
  | some rest => (splitFirst delim rest).1

/-- One character of the `escapeHtml` round trip
(`div.textContent = text; div.innerHTML`): the serialization escapes
`&`, `<` and `>`. -/
def escChar (c : Char) : Str :=
  if c = '&' then str "&amp;"
  else if c = '<' then str "&lt;"
  else if c = '>' then str "&gt;"
  else [c]

/-- `escapeHtml` from the component. -/
def escapeHtml (s : Str) : Str := (s.map escChar).flatten

/-- `properties` of a full-text-search feature (`FTSFeature`). -/
structure FTSProps where
  layer_name : Str
  label : Str
deriving DecidableEq

/-- A place-search feature.  `coords` is the rendering of
`geometry.coordinates` as interpolated into the diagnostic message
(kept opaque: the component never computes with the numbers). -/
structure FTSFeature where
  properties : FTSProps
  coords : Str
deriving DecidableEq

/-- `properties` of an intersection-response feature (`GSRFeature`).
Fields typed optional in `types.ts` (or absent from it, like
`informations`) are `Option Str`. -/
structure GSRProps where
  nom_gsr : Str
  numero_telephone : Option Str
  email : Option Str
  form_prise_contact : Option Str
  informations : Option Str
  adresse : Str
  google_maps : Str
deriving DecidableEq

/-- The `OfficeInfo` record built at the top of `displayOfficeInfo`. -/
structure OfficeInfo where
  nom_gsr : Str
  numero_telephone : Str
  email : Str
  form_prise_contact : Str
  informations : Str
  adresse : Str
  localite : Str
  google_maps : Str
deriving DecidableEq

/-- The object literal in `displayOfficeInfo` (`properties.x || ""` on a
present string is the identity sending `""` to `""`; on an optional field
it defaults `undefined` to `""`). -/
def extractOfficeInfo (p : GSRProps) : OfficeInfo where
  nom_gsr := p.nom_gsr
  numero_telephone := p.numero_telephone.getD []
  email := p.email.getD []
  form_prise_contact := p.form_prise_contact.getD []
  informations := p.informations.getD []
  adresse := adresseLine p.adresse
  localite := adresseLoc p.adresse
  google_maps := p.google_maps

/-- `Object.values(officeInfo)` in the literal's insertion order. -/
def officeFields (i : OfficeInfo) : List Str :=
  [i.nom_gsr, i.numero_telephone, i.email, i.form_prise_contact,
   i.informations, i.adresse, i.localite, i.google_maps]

/-- `Object.values(officeInfo).some(v => v && v.trim() !== "")`. -/
def hasValidInfo (i : OfficeInfo) : Bool :=
  (officeFields i).any (fun v => !v.isEmpty && !(jsTrim v).isEmpty)

/-- The filter in `performSearch` (lines 175–180). -/
def keepB (f : FTSFeature) : Bool :=
  f.properties.layer_name == str "communes" ||
  f.properties.layer_name == str "localite" ||
  f.properties.layer_name == str "gsr002_guichet_social_regional"

def isCommuneB (f : FTSFeature) : Bool :=
  f.properties.layer_name == str "communes"

/-- Lines 175–190 of `performSearch`: which feature list is handed to
`displaySuggestions`. -/
def selectFeatures (fs : List FTSFeature) : List FTSFeature :=
  let filteredFeatures := fs.filter keepB
  let onlyCommunesFeatures := filteredFeatures.filter isCommuneB
  if onlyCommunesFeatures.length = 0 then filteredFeatures
  else onlyCommunesFeatures

/-- `<h3>${officeInfo.nom_gsr || "Guichet social régional"}</h3>`. -/
def nomHeading (n : Str) : Str :=
  if n.isEmpty then str "Guichet social régional" else n

def tpl0 : String := "
      <h3>"

def tpl1 : String := "</h3>
      <div class=\"office-info\">
        <div class=\"flex\">
          <div class=\"info-value\">"

def tpl2 : String := "<br>
            "

def tpl3 : String := "<br>
          </div>
          <div class=\"info-value\">
            <a href=\""

def tpl4 : String := "\" target=\"_blank\" rel=\"noopener noreferrer\">
              <span class=\"icon\">
                <svg xmlns=\"http://www.w3.org/2000/svg\" width=\"32\" height=\"32\" fill=\"currentColor\" class=\"bi bi-sign-turn-right\" viewBox=\"0 0 16 16\" aria-hidden=\"true\">
                  <path d=\"M5 8.5A2.5 2.5 0 0 1 7.5 6H9V4.534a.25.25 0 0 1 .41-.192l2.36 1.966c.12.1.12.284 0 .384L9.41 8.658A.25.25 0 0 1 9 8.466V7H7.5A1.5 1.5 0 0 0 6 8.5V11H5z\"/>
                  <path fill-rule=\"evenodd\" d=\"M6.95.435c.58-.58 1.52-.58 2.1 0l6.515 6.516c.58.58.58 1.519 0 2.098L9.05 15.565c-.58.58-1.519.58-2.098 0L.435 9.05a1.48 1.48 0 0 1 0-2.098zm1.4.7a.495.495 0 0 0-.7 0L1.134 7.65a.495.495 0 0 0 0 .7l6.516 6.516a.495.495 0 0 0 .7 0l6.516-6.516a.495.495 0 0 0 0-.7L8.35 1.134Z\"/>
                </svg>
              </span>
              Itinéraire
            </a>
          </div>
        </div>

        <hr>

        <div class=\"flex\">
          <div class=\"info-value\">
            "

def tpl5 : String := "
          </div>
          <div class=\"info-value\">
            <a href=\"tel:"

def tpl6 : String := "\">
              <span class=\"icon\">
                <svg xmlns=\"http://www.w3.org/2000/svg\" width=\"32\" height=\"32\" fill=\"currentColor\" class=\"bi bi-telephone\" viewBox=\"0 0 16 16\" aria-hidden=\"true\">
                  <path d=\"M3.654 1.328a.678.678 0 0 0-1.015-.063L1.605 2.3c-.483.484-.661 1.169-.45 1.77a17.6 17.6 0 0 0 4.168 6.608 17.6 17.6 0 0 0 6.608 4.168c.601.211 1.286.033 1.77-.45l1.034-1.034a.678.678 0 0 0-.063-1.015l-2.307-1.794a.68.68 0 0 0-.58-.122l-2.19.547a1.75 1.75 0 0 1-1.657-.459L5.482 8.062a1.75 1.75 0 0 1-.46-1.657l.548-2.19a.68.68 0 0 0-.122-.58zM1.884.511a1.745 1.745 0 0 1 2.612.163L6.29 2.98c.329.423.445.974.315 1.494l-.547 2.19a.68.68 0 0 0 .178.643l2.457 2.457a.68.68 0 0 0 .644.178l2.189-.547a1.75 1.75 0 0 1 1.494.315l2.306 1.794c.829.645.905 1.87.163 2.611l-1.034 1.034c-.74.74-1.846 1.065-2.877.702a18.6 18.6 0 0 1-7.01-4.42 18.6 18.6 0 0 1-4.42-7.009c-.362-1.03-.037-2.137.703-2.877z\"/>
                </svg>
              </span>
              Appeler
            </a>
          </div>
        </div>

        <hr>

        <div class=\"flex\">

          <div class=\"info-value\">
            <a href=\""

def tpl7 : String := "\" target=\"_blank\" rel=\"noopener noreferrer\">
              <span class=\"icon\">
                <svg xmlns=\"http://www.w3.org/2000/svg\" width=\"32\" height=\"32\" fill=\"currentColor\" class=\"bi bi-envelope\" viewBox=\"0 0 16 16\" aria-hidden=\"true\">
                  <path d=\"M0 4a2 2 0 0 1 2-2h12a2 2 0 0 1 2 2v8a2 2 0 0 1-2 2H2a2 2 0 0 1-2-2zm2-1a1 1 0 0 0-1 1v.217l7 4.2 7-4.2V4a1 1 0 0 0-1-1zm13 2.383-4.708 2.825L15 11.105zm-.034 6.876-5.64-3.471L8 9.583l-1.326-.795-5.64 3.47A1 1 0 0 0 2 13h12a1 1 0 0 0 .966-.741M1 11.105l4.708-2.897L1 5.383z\"/>
                </svg>
                Nous écrire
              </span>
            </a>
          </div>

          <div class=\"info-value\">
            <a href=\""

def tpl8 : String := "\" target=\"_blank\" rel=\"noopener noreferrer\">
              <span class=\"icon\">
                <svg xmlns=\"http://www.w3.org/2000/svg\" width=\"32\" height=\"32\" fill=\"currentColor\" class=\"bi bi-info-circle\" viewBox=\"0 0 16 16\" aria-hidden=\"true\">
                  <path d=\"M8 15A7 7 0 1 1 8 1a7 7 0 0 1 0 14m0 1A8 8 0 1 0 8 0a8 8 0 0 0 0 16\"/>
                  <path d=\"m8.93 6.588-2.29.287-.082.38.45.083c.294.07.352.176.288.469l-.738 3.468c-.194.897.105 1.319.808 1.319.545 0 1.178-.252 1.465-.598l.088-.416c-.2.176-.492.246-.686.246-.275 0-.375-.193-.304-.533zM9 4.5a1 1 0 1 1-2 0 1 1 0 0 1 2 0\"/>
                </svg>
                Informations et horaires
              </span>
            </a>
          </div>

        </div>
      </div>
    "

/-- The innerHTML assigned to the office card in `displayOfficeInfo`
(lines 312–379), with `escapeHtml` applied exactly where the source
applies it (note the `h3` heading interpolates `nom_gsr` directly). -/
def officeCardHtml (i : OfficeInfo) : Str :=
  str tpl0 ++ nomHeading i.nom_gsr ++
  str tpl1 ++ escapeHtml i.adresse ++
  str tpl2 ++ escapeHtml i.localite ++
  str tpl3 ++ escapeHtml i.google_maps ++
  str tpl4 ++ escapeHtml i.numero_telephone ++
  str tpl5 ++ escapeHtml i.numero_telephone ++
  str tpl6 ++ escapeHtml i.form_prise_contact ++
  str tpl7 ++ escapeHtml i.informations ++
  str tpl8

/-- The same template as a raw interpolation: each hole is spliced in
verbatim (the telephone hole is used twice, as in the source). -/
def cardTemplate (h a l g t fc inf : Str) : Str :=
  str tpl0 ++ h ++ str tpl1 ++ a ++ str tpl2 ++ l ++ str tpl3 ++ g ++
  str tpl4 ++ t ++ str tpl5 ++ t ++ str tpl6 ++ fc ++ str tpl7 ++ inf ++
  str tpl8

def searchErrMsg : Str :=
  str "Erreur lors de la recherche, veuillez nous contacter au 032 889 85 02."

def officeErrMsg : Str :=
  str "Aucun guichet trouvé. Veuillez nous contacter au 032 889 85 02 "

def invalidMsg : Str :=
  str "Malheureusement aucun service n\x27a été trouvé pour cet emplacement."

def coordsMsgText : Str := str "Aucun guichet trouvé pour les coordonnée "

/-- `showError(...)` message for an empty intersection response: the
queried feature's coordinates are interpolated at the end. -/
def coordsMsg (f : FTSFeature) : Str := coordsMsgText ++ f.coords

/-- What the suggestions dropdown's innerHTML currently holds. -/
inductive SugContent
  | empty
  | loading
  | noResults
  | items (fs : List FTSFeature)
deriving DecidableEq

/-- The DOM-visible state of the component: the `hidden`-class flags and
the contents of the four mutable regions. -/
structure Ui where
  sugHidden : Bool := true
  sugContent : SugContent := .empty
  errHidden : Bool := true
  errText : Str := []
  cardHidden : Bool := true
  cardHtml : Str := []
  inputValue : Str := []
  tooltipHidden : Bool := false
deriving DecidableEq

/-- Machine state.  `searchGen` numbers the successive `AbortController`s
(0 = the initial `null`); `pendingSearch` lists the generations of search
fetches that have been issued but whose promise has not settled yet
(including already-aborted ones still awaiting their `AbortError`
rejection).  `pendingOffice` lists the issued-but-unsettled office
(intersection) fetches together with the place feature they were issued
for — the source attaches no abort signal to these. -/
structure MState where
  ui : Ui := {}
  pendingTimer : Option Str := none
  searchGen : Nat := 0
  pendingSearch : List Nat := []
  officeCtr : Nat := 0
  pendingOffice : List (Nat × FTSFeature) := []
deriving DecidableEq

def initState : MState := {}

/-- The synchronous head of `performSearch` (lines 154–171): abort the
previous controller (all generations below the new one count as aborted),
create a new one, show the loading row, and issue the fetch. -/
def performSearchM (s : MState) : MState :=
  { s with
    searchGen := s.searchGen + 1
    pendingSearch := s.pendingSearch ++ [s.searchGen + 1]
    ui := { s.ui with sugContent := .loading, sugHidden := false } }

/-- `handleSearchInput` (lines 100–123): read and trim the value, clear
any pending debounce timer, hide error and office card, update the
tooltip; below the length threshold hide the suggestions and stop,
otherwise schedule the debounced search with the trimmed query. -/
def handleSearchInputM (raw : Str) (s : MState) : MState :=
  let q := jsTrim raw
  let ui1 := { s.ui with
    inputValue := raw
    errHidden := true
    cardHidden := true
    tooltipHidden := !q.isEmpty }
  if q.length < 3 then
    { s with pendingTimer := none, ui := { ui1 with sugHidden := true } }
  else
    { s with pendingTimer := some q, ui := ui1 }

/-- `displaySuggestions` (lines 211–237). -/
def displaySuggestionsM (fs : List FTSFeature) (s : MState) : MState :=
  if fs.length = 0 then
    { s with ui := { s.ui with sugContent := .noResults, sugHidden := false } }
  else
    { s with ui := { s.ui with sugContent := .items fs, sugHidden := false } }

/-- Settlement of the search fetch of generation `g`.  A generation other
than the current one was aborted by a later `performSearch`, so its
promise settles with an `AbortError`, which the `catch` in
`performSearch` swallows (lines 191–195): nothing is mutated.  The
current generation settles with its genuine outcome: the filter/ranking
then `displaySuggestions` on success (lines 173–190), or the error
message plus `hideSuggestions` on a network/parse failure
(lines 197–202). -/
def searchRespondM (g : Nat) (r : Except Unit (List FTSFeature)) (s : MState) :
    MState :=
  if g ∈ s.pendingSearch then
    let s1 := { s with pendingSearch := s.pendingSearch.erase g }
    if g = s.searchGen then
      match r with
      | .ok fs => displaySuggestionsM (selectFeatures fs) s1
      | .error _ =>
        { s1 with ui := { s1.ui with
            errHidden := false, errText := searchErrMsg, sugHidden := true } }
    else s1
  else s

/-- The synchronous part of `handleSuggestionClick` (lines 239–252): hide
suggestions, hide error, echo the label into the input, and issue the
intersection fetch (no abort handle is attached to it). -/
def suggestionClickM (f : FTSFeature) (s : MState) : MState :=
  { s with
    officeCtr := s.officeCtr + 1
    pendingOffice := s.pendingOffice ++ [(s.officeCtr + 1, f)]
    ui := { s.ui with
      sugHidden := true
      errHidden := true
      inputValue := f.properties.label } }

/-- The continuation of `fetchOfficeInfo` after `response.json()`
(lines 275–285) together with `displayOfficeInfo` (lines 287–382),
as a pure update of the visible state.  `f` is the place feature the
request was issued for. -/
def officeSuccessUi (f : FTSFeature) (feats : List GSRProps) (ui : Ui) : Ui :=
  match feats with
  | [] => { ui with errHidden := false, errText := coordsMsg f }
  | p :: _ =>
    let info := extractOfficeInfo p
    if hasValidInfo info then
      { ui with cardHidden := false, cardHtml := officeCardHtml info }
    else
      { ui with errHidden := false, errText := invalidMsg }

/-- Settlement of office fetch `id`.  There is no abort signal, so the
genuine outcome is always applied; a rejection propagates to the `catch`
in `handleSuggestionClick` (lines 253–258), which shows the generic
office error message. -/
def officeRespondM (id : Nat) (r : Except Unit (List GSRProps)) (s : MState) :
    MState :=
  match s.pendingOffice.lookup id with
  | none => s
  | some f =>
    let s1 := { s with pendingOffice := s.pendingOffice.filter (fun p => p.1 != id) }
    match r with
    | .ok feats => { s1 with ui := officeSuccessUi f feats s1.ui }
    | .error _ =>
      { s1 with ui := { s1.ui with errHidden := false, errText := officeErrMsg } }

/-- External events: user actions, timer expirations, and promise
settlements chosen by the network scheduler. -/
inductive Ev
  | input (raw : Str)
  | timerFire
  | focus
  | blurTimeout
  | outsideClick
  | searchResponse (g : Nat) (r : Except Unit (List FTSFeature))
  | officeResponse (id : Nat) (r : Except Unit (List GSRProps))
  | suggestionClick (f : FTSFeature)

/-- One run-to-completion handler activation per event. -/
def stepM (s : MState) : Ev → MState
  | .input raw => handleSearchInputM raw s
  | .timerFire =>
    match s.pendingTimer with
    | some _ => performSearchM { s with pendingTimer := none }
    | none => s
  | .focus =>
    if 3 ≤ (jsTrim s.ui.inputValue).length then performSearchM s else s
  | .blurTimeout => { s with ui := { s.ui with sugHidden := true } }
  | .outsideClick => { s with ui := { s.ui with sugHidden := true } }
  | .searchResponse g r => searchRespondM g r s
  | .officeResponse id r => officeRespondM id r s
  | .suggestionClick f => suggestionClickM f s

def runM (s : MState) : List Ev → MState
  | [] => s
  | e :: es => runM (stepM s e) es

structure GateState where
  pending : Option (Nat × Str) := none
  fired : List Str := []
deriving DecidableEq

def gateInit : GateState := {}

/-- Timer expiry: if the armed deadline has been reached by time `t`,
the callback runs `performSearch` with the captured query. -/
def gateFlush (t : Nat) (s : GateState) : GateState :=
  match s.pending with
  | some (d, q) => if d ≤ t then { pending := none, fired := s.fired ++ [q] } else s
  | none => s

/-- An `input` event at time `t`: `clearTimeout` on any pending timer,
then (for a trimmed query of length ≥ 3) `setTimeout(…, 300)` with the
trimmed text; below the threshold no timer is armed. -/
def gateInput (t : Nat) (raw : Str) (s : GateState) : GateState :=
  let q := jsTrim raw
  if q.length < 3 then { s with pending := none }
  else { s with pending := some (t + 300, q) }

/-- Process timestamped input events in order; before each event any
timer whose deadline already passed fires. -/
def runGate (s : GateState) : List (Nat × Str) → GateState
  | [] => s
  | (t, raw) :: rest => runGate (gateInput t raw (gateFlush t s)) rest

/-- After the last event the quiet period elapses and a still-armed timer
fires. -/
def gateFinish (s : GateState) : GateState :=
  match s.pending with
  | some (_, q) => { pending := none, fired := s.fired ++ [q] }
  | none => s

/-- Each event arrives strictly within 300 ms of its predecessor. -/
def withinWindow : List (Nat × Str) → Bool
  | [] => true
  | [_] => true
  | a :: b :: r => decide (b.1 < a.1 + 300) && withinWindow (b :: r)

/-- A concrete office record whose `nom_gsr` is non-empty. -/
def exInfoX : OfficeInfo where
  nom_gsr := str "X"
  numero_telephone := []
  email := []
  form_prise_contact := []
  informations := []
  adresse := []
  localite := []
  google_maps := []

/-- A feature standing for the selected place in concrete runs. -/
def exPlace : FTSFeature where
  properties := { layer_name := str "communes", label := str "Neuchatel" }
  coords := str "559000,205000"

/-- Intersection properties with every field blank after trimming. -/
def exBlankProps : GSRProps where
  nom_gsr := str " "
  numero_telephone := none
  email := some []
  form_prise_contact := none
  informations := none
  adresse := str "  "
  google_maps := []

/-- Intersection properties of a fully populated office. -/
def exGoodProps : GSRProps where
  nom_gsr := str "GSR Littoral"
  numero_telephone := some (str "032 889 85 02")
  email := some (str "gsr@ne.ch")
  form_prise_contact := some (str "https://ne.ch/form")
  informations := some (str "https://ne.ch/info")
  adresse := str "Rue A 1 - Ville B"
  google_maps := str "https://maps.example"

/-- A run in which an office card is already showing when the user picks
a suggestion again (search → pick → office shown → refocus → new
results → pick). -/
def c8trace : List Ev :=
  [.input (str "Neuchatel"), .timerFire, .searchResponse 1 (.ok [exPlace]),
   .suggestionClick exPlace, .officeResponse 1 (.ok [exGoodProps]),
   .focus, .searchResponse 2 (.ok [exPlace]), .suggestionClick exPlace]

/-- The shorter run that leaves an office card showing. -/
def c9trace : List Ev :=
  [.input (str "Neuchatel"), .timerFire, .searchResponse 1 (.ok [exPlace]),
   .suggestionClick exPlace, .officeResponse 1 (.ok [exGoodProps])]

/-- Search-slot invariant: the unsettled search generations are distinct
and never exceed the current controller generation. -/
def SInv (s : MState) : Prop :=
  s.pendingSearch.Nodup ∧ ∀ g ∈ s.pendingSearch, g ≤ s.searchGen

/-- Number of outstanding non-aborted search fetches: only the current
controller generation is unaborted. -/
def liveSearchCount (s : MState) : Nat :=
  (s.pendingSearch.filter (fun g => g == s.searchGen)).length

/-- A run in which a second suggestion is picked while the first office
lookup is still outstanding (suggestions are visibly shown before each
pick, as the first two conjuncts check). -/
def c3trace : List Ev :=
  [.input (str "Neuchatel"), .timerFire, .searchResponse 1 (.ok [exPlace]),
   .suggestionClick exPlace, .focus, .searchResponse 2 (.ok [exPlace]),
   .suggestionClick exPlace]

theorem commune_keep (f : FTSFeature) (h : isCommuneB f = true) :
    keepB f = true := by
  rw [isCommuneB] at h
  rw [keepB, h]
  rfl

/-- C2: for every upstream search response, the displayed suggestion list
keeps only the three admitted layers; if at least one kept feature is a
commune the displayed list is exactly the commune subset of the original
response in original order, otherwise it is the full filtered subset in
original order. -/
theorem C2_filter_ranking (fs : List FTSFeature) :
    selectFeatures fs =
      if (fs.filter keepB).any isCommuneB then fs.filter isCommuneB
      else fs.filter keepB := by
  have hff : (fs.filter keepB).filter isCommuneB = fs.filter isCommuneB := by
    rw [List.filter_filter]
    apply List.filter_congr
    intro f _
    cases hc : isCommuneB f
    · simp
    · simp [commune_keep f hc]
  rw [selectFeatures]
  cases h : (fs.filter keepB).any isCommuneB
  · have hnil : (fs.filter keepB).filter isCommuneB = [] := by
      rw [List.filter_eq_nil_iff]
      intro a ha
      have := List.any_eq_false.mp h a ha
      simpa using this
    simp [hnil]
  · obtain ⟨x, hx, hcx⟩ := List.any_eq_true.mp h
    have hmem : x ∈ (fs.filter keepB).filter isCommuneB :=
      List.mem_filter.mpr ⟨hx, hcx⟩
    have hne : ¬((fs.filter keepB).filter isCommuneB).length = 0 := by
      intro h0
      rw [List.length_eq_zero] at h0
      rw [h0] at hmem
      exact (List.not_mem_nil x) hmem
    rw [if_neg hne, hff]
    simp

theorem pfx_app (p t : Str) : pfx p (p ++ t) = true := by
  induction p with
  | nil => rfl
  | cons a as ih => simp [List.cons_append, pfx, ih]

theorem pfx_refl (p : Str) : pfx p p = true := by
  have h := pfx_app p []
  rwa [List.append_nil] at h

theorem pfx_extend (p : Str) :
    ∀ (l t : Str), pfx p l = true → pfx p (l ++ t) = true := by
  induction p with
  | nil => intro l t _; rfl
  | cons a as ih =>
    intro l t h
    cases l with
    | nil => simp [pfx] at h
    | cons b bs =>
      simp [pfx] at h ⊢
      exact ⟨h.1, ih bs t h.2⟩

theorem pfx_exists : ∀ (p l : Str), pfx p l = true → ∃ t, l = p ++ t := by
  intro p
  induction p with
  | nil => intro l _; exact ⟨l, rfl⟩
  | cons a as ih =>
    intro l h
    cases l with
    | nil => simp [pfx] at h
    | cons b bs =>
      simp [pfx] at h
      obtain ⟨t, ht⟩ := ih bs h.2
      exact ⟨t, by rw [List.cons_append, ← h.1, ← ht]⟩

theorem sfx_cons (p : Str) (a : Char) (l : Str)
    (h : sfx p l = true) : sfx p (a :: l) = true := by
  rw [sfx] at *
  rw [List.reverse_cons]
  exact pfx_extend _ _ _ h

theorem sfx_exists (A2 A : Str) (h : sfx A2 A = true) :
    ∃ pre, A = pre ++ A2 := by
  rw [sfx] at h
  obtain ⟨t, ht⟩ := pfx_exists _ _ h
  refine ⟨t.reverse, ?_⟩
  have h2 := congrArg List.reverse ht
  rwa [List.reverse_reverse, List.reverse_append, List.reverse_reverse] at h2

theorem splitFirst_self (c : Char) (cs B : Str) :
    splitFirst (c :: cs) ((c :: cs) ++ B) = ([], some B) := by
  have h : pfx (c :: cs) (c :: (cs ++ B)) = true := by
    have h0 := pfx_app (c :: cs) B
    rwa [List.cons_append] at h0
  show splitFirst (c :: cs) (c :: (cs ++ B)) = ([], some B)
  simp [splitFirst, h, List.drop_left]

theorem noOcc_splitFirst (sep : Str) :
    ∀ (s : Str), hasOcc sep s = false → splitFirst sep s = (s, none) := by
  intro s
  induction s with
  | nil => intro _; rfl
  | cons c cs ih =>
    intro h
    rw [hasOcc] at h
    by_cases hp : pfx sep (c :: cs) = true
    · simp [splitFirst, hp] at h
    · have hp' : pfx sep (c :: cs) = false := by
        revert hp; cases pfx sep (c :: cs) <;> simp
      have h' : hasOcc sep cs = false := by
        rw [hasOcc]
        revert h
        simp [splitFirst, hp']
      simp [splitFirst, hp', ih h']

theorem hasOcc_cons_false (sep : Str) (c : Char) (cs : Str)
    (h : hasOcc sep (c :: cs) = false) : hasOcc sep cs = false := by
  rw [hasOcc] at *
  by_cases hp : pfx sep (c :: cs) = true
  · simp [splitFirst, hp] at h
  · have hp' : pfx sep (c :: cs) = false := by
      revert hp; cases pfx sep (c :: cs) <;> simp
    revert h
    simp [splitFirst, hp']

theorem hasOcc_app (sep : Str) :
    ∀ (pre A2 : Str), sep ≠ [] → pfx sep A2 = true →
      hasOcc sep (pre ++ A2) = true := by
  intro pre
  induction pre with
  | nil =>
    intro A2 hsep hpre
    cases A2 with
    | nil =>
      cases sep with
      | nil => exact absurd rfl hsep
      | cons a as => simp [pfx] at hpre
    | cons a as =>
      rw [List.nil_append, hasOcc]
      simp [splitFirst, hpre]
  | cons p pre' ih =>
    intro A2 hsep hpre
    rw [List.cons_append, hasOcc]
    by_cases hp : pfx sep (p :: (pre' ++ A2)) = true
    · simp [splitFirst, hp]
    · have hp' : pfx sep (p :: (pre' ++ A2)) = false := by
        revert hp; cases pfx sep (p :: (pre' ++ A2)) <;> simp
      have h2 := ih A2 hsep hpre
      rw [hasOcc] at h2
      simp [splitFirst, hp', h2]

/-- If no non-empty suffix of `A` starts an occurrence of `sep` in
`A ++ sep ++ B`, then the first occurrence of `sep` in `A ++ sep ++ B`
is the explicit middle one. -/
theorem split_app (sep : Str) (hsep : sep ≠ []) :
    ∀ (A B : Str),
      (∀ A2, A2 ≠ [] → sfx A2 A = true →
        pfx sep (A2 ++ sep ++ B) = false) →
      splitFirst sep (A ++ sep ++ B) = (A, some B) := by
  intro A
  induction A with
  | nil =>
    intro B _
    rw [List.nil_append]
    cases sep with
    | nil => exact absurd rfl hsep
    | cons c cs => exact splitFirst_self c cs B
  | cons a A' ih =>
    intro B hA
    have hp : pfx sep ((a :: A') ++ sep ++ B) = false := by
      apply hA (a :: A') (List.cons_ne_nil a A')
      rw [sfx]
      exact pfx_refl _
    rw [List.cons_append, List.cons_append] at hp ⊢
    have ihe := ih B (fun A2 hne hsuf => hA A2 hne (sfx_cons _ a _ hsuf))
    rw [List.append_assoc] at hp ihe ⊢
    simp [splitFirst, hp, ihe]

theorem delim_chars : delim = [' ', '-', ' '] := by decide

/-- For the concrete delimiter `" - "`: if `A` contains no occurrence of
the delimiter and does not end in `" -"`, then no non-empty suffix of `A`
starts an occurrence of the delimiter in `A ++ delim ++ B` (the only
candidate overlaps are a length-2 suffix `" -"` or an occurrence lying
inside `A`). -/
theorem delim_cond (A B : Str) (h2 : hasOcc delim A = false)
    (h3 : sfx [' ', '-'] A = false) :
    ∀ A2, A2 ≠ [] → sfx A2 A = true → pfx delim (A2 ++ delim ++ B) = false := by
  intro A2 hne hsuf
  rw [delim_chars]
  rcases A2 with _ | ⟨x, A2t⟩
  · exact absurd rfl hne
  rcases A2t with _ | ⟨y, A2t2⟩
  · show pfx [' ', '-', ' '] (x :: ' ' :: '-' :: ' ' :: B) = false
    have hc : ('-' == ' ') = false := by decide
    simp [pfx, hc]
  rcases A2t2 with _ | ⟨z, rest⟩
  · show pfx [' ', '-', ' '] (x :: y :: ' ' :: '-' :: ' ' :: B) = false
    by_cases hxy : x = ' ' ∧ y = '-'
    · exfalso
      obtain ⟨hx, hy⟩ := hxy
      subst hx; subst hy
      rw [hsuf] at h3
      exact absurd h3 (by decide)
    · have hcases : ¬(x = ' ') ∨ ¬(y = '-') := by tauto
      rcases hcases with h | h
      · have hb : (' ' == x) = false := beq_eq_false_iff_ne.mpr (Ne.symm h)
        simp [pfx, hb]
      · have hb : ('-' == y) = false := beq_eq_false_iff_ne.mpr (Ne.symm h)
        simp [pfx, hb]
  · show pfx [' ', '-', ' ']
      (x :: y :: z :: (rest ++ [' ', '-', ' '] ++ B)) = false
    by_cases hall : x = ' ' ∧ y = '-' ∧ z = ' '
    · exfalso
      obtain ⟨hx, hy, hz⟩ := hall
      subst hx; subst hy; subst hz
      obtain ⟨pre, hpre⟩ := sfx_exists _ _ hsuf
      have hocc : hasOcc delim A = true := by
        rw [hpre]
        apply hasOcc_app delim pre _ (by rw [delim_chars]; exact List.cons_ne_nil _ _)
        rw [delim_chars]
        simp [pfx]
      rw [h2] at hocc
      exact absurd hocc (by decide)
    · have hcases : ¬(x = ' ') ∨ ¬(y = '-') ∨ ¬(z = ' ') := by tauto
      rcases hcases with h | h | h
      · have hb : (' ' == x) = false := beq_eq_false_iff_ne.mpr (Ne.symm h)
        simp [pfx, hb]
      · have hb : ('-' == y) = false := beq_eq_false_iff_ne.mpr (Ne.symm h)
        simp [pfx, hb]
      · have hb : (' ' == z) = false := beq_eq_false_iff_ne.mpr (Ne.symm h)
        simp [pfx, hb]

/-- C6 (corrected): the claim fails at the combined address
`" - Ville"`, i.e. the decomposition `A = ""`, `B = "Ville"` (both
delimiter-free, and the string contains the delimiter): the claim
demands `addressLine = A = ""`, but the code's `split(" - ")[0] ||
adresse` fallback yields the whole string. -/
theorem C6_address_split_cex :
    ([] : Str) ++ delim ++ str "Ville" = str " - Ville" ∧
    hasOcc delim ([] : Str) = false ∧
    hasOcc delim (str "Ville") = false ∧
    adresseLine (str " - Ville") = str " - Ville" ∧
    ¬ adresseLine (str " - Ville") = ([] : Str) := by decide

/-- C6 (amended): for a combined address `A ++ " - " ++ B` in which the
first segment `A` is non-empty, neither segment contains the delimiter,
and `A` does not end in `" -"` (which would shift the first delimiter
occurrence two characters left), the extracted `addressLine` is `A` and
the extracted `locality` is `B`.  For an address with no delimiter
occurrence, `addressLine` is the whole string and `locality` is empty. -/
theorem C6_address_split_amended :
    (∀ A B : Str, A ≠ [] → hasOcc delim A = false →
      sfx [' ', '-'] A = false → hasOcc delim B = false →
      adresseLine (A ++ delim ++ B) = A ∧ adresseLoc (A ++ delim ++ B) = B) ∧
    (∀ s : Str, hasOcc delim s = false →
      adresseLine s = s ∧ adresseLoc s = []) := by
  constructor
  · intro A B hA h2 h3 hB
    have hs : splitFirst delim (A ++ delim ++ B) = (A, some B) :=
      split_app delim (by rw [delim_chars]; exact List.cons_ne_nil _ _) A B
        (delim_cond A B h2 h3)
    constructor
    · rw [adresseLine, hs]
      exact if_neg hA
    · rw [adresseLoc, hs]
      show (splitFirst delim B).1 = B
      rw [noOcc_splitFirst delim B hB]
  · intro s h
    have hs := noOcc_splitFirst delim s h
    constructor
    · rw [adresseLine, hs]
      by_cases h0 : s = []
      · rw [if_pos h0]
      · rw [if_neg h0]
    · rw [adresseLoc, hs]

/-- Witness for C6's amended theorem at `"Rue A 1 - Ville B"` (both
clauses instantiated and hypotheses discharged concretely). -/
theorem C6_address_split_amended_w :
    adresseLine (str "Rue A 1" ++ delim ++ str "Ville B") = str "Rue A 1" ∧
    adresseLoc (str "Rue A 1" ++ delim ++ str "Ville B") = str "Ville B" ∧
    adresseLine (str "Neuchatel") = str "Neuchatel" ∧
    adresseLoc (str "Neuchatel") = [] := by
  have h1 := C6_address_split_amended.1 (str "Rue A 1") (str "Ville B")
    (by decide) (by decide) (by decide) (by decide)
  have h2 := C6_address_split_amended.2 (str "Neuchatel") (by decide)
  exact ⟨h1.1, h1.2, h2.1, h2.2⟩

theorem escChar_no_angle (c : Char) : '<' ∉ escChar c ∧ '>' ∉ escChar c := by
  rw [escChar]
  by_cases h1 : c = '&'
  · rw [if_pos h1]
    exact ⟨by decide, by decide⟩
  rw [if_neg h1]
  by_cases h2 : c = '<'
  · rw [if_pos h2]
    exact ⟨by decide, by decide⟩
  rw [if_neg h2]
  by_cases h3 : c = '>'
  · rw [if_pos h3]
    exact ⟨by decide, by decide⟩
  rw [if_neg h3]
  constructor
  · intro hm
    rw [List.mem_singleton] at hm
    exact h2 hm.symm
  · intro hm
    rw [List.mem_singleton] at hm
    exact h3 hm.symm

theorem escapeHtml_no_angle (s : Str) :
    '<' ∉ escapeHtml s ∧ '>' ∉ escapeHtml s := by
  constructor <;>
  · intro hm
    rw [escapeHtml, List.mem_flatten] at hm
    obtain ⟨l, hl, hcl⟩ := hm
    rw [List.mem_map] at hl
    obtain ⟨c, _, hc⟩ := hl
    rw [← hc] at hcl
    first
    | exact (escChar_no_angle c).1 hcl
    | exact (escChar_no_angle c).2 hcl

/-- C10: the office-card markup factors through the raw template with
`escapeHtml` applied to `adresse`, `localite`, `google_maps`,
`numero_telephone` (both occurrences), `form_prise_contact` and
`informations`, and the heading hole taking `nom_gsr` verbatim (modulo
the `|| "Guichet social régional"` default); `escapeHtml` output can
never contain `<` or `>`, whereas a non-empty `nom_gsr` appears in the
markup exactly as given. -/
theorem C10_card_escaping :
    (∀ i : OfficeInfo, officeCardHtml i =
      cardTemplate (nomHeading i.nom_gsr) (escapeHtml i.adresse)
        (escapeHtml i.localite) (escapeHtml i.google_maps)
        (escapeHtml i.numero_telephone) (escapeHtml i.form_prise_contact)
        (escapeHtml i.informations)) ∧
    (∀ s : Str, '<' ∉ escapeHtml s ∧ '>' ∉ escapeHtml s) ∧
    (∀ i : OfficeInfo, i.nom_gsr ≠ [] →
      hasOcc i.nom_gsr (officeCardHtml i) = true) := by
  refine ⟨fun i => rfl, escapeHtml_no_angle, fun i h => ?_⟩
  have hne : i.nom_gsr.isEmpty = false := by
    cases hn : i.nom_gsr with
    | nil => exact absurd hn h
    | cons a l => rfl
  have hnom : nomHeading i.nom_gsr = i.nom_gsr := by
    rw [nomHeading, hne]
    rfl
  have he : officeCardHtml i =
      str tpl0 ++ (i.nom_gsr ++
        (str tpl1 ++ escapeHtml i.adresse ++ str tpl2 ++
         escapeHtml i.localite ++ str tpl3 ++ escapeHtml i.google_maps ++
         str tpl4 ++ escapeHtml i.numero_telephone ++ str tpl5 ++
         escapeHtml i.numero_telephone ++ str tpl6 ++
         escapeHtml i.form_prise_contact ++ str tpl7 ++
         escapeHtml i.informations ++ str tpl8)) := by
    rw [officeCardHtml, hnom]
    simp [List.append_assoc]
  rw [he]
  exact hasOcc_app _ _ _ h (pfx_app _ _)

theorem C10_card_escaping_w :
    officeCardHtml exInfoX =
      cardTemplate (nomHeading exInfoX.nom_gsr) (escapeHtml exInfoX.adresse)
        (escapeHtml exInfoX.localite) (escapeHtml exInfoX.google_maps)
        (escapeHtml exInfoX.numero_telephone)
        (escapeHtml exInfoX.form_prise_contact)
        (escapeHtml exInfoX.informations) ∧
    '<' ∉ escapeHtml (str "<b>") ∧
    hasOcc exInfoX.nom_gsr (officeCardHtml exInfoX) = true :=
  ⟨C10_card_escaping.1 exInfoX, (C10_card_escaping.2.1 (str "<b>")).1,
   C10_card_escaping.2.2 exInfoX (by decide)⟩

theorem blank_any_false (l : List Str) :
    (l.any (fun v => !v.isEmpty && !(jsTrim v).isEmpty) = false) ↔
      (∀ v ∈ l, jsTrim v = []) := by
  induction l with
  | nil => simp
  | cons v vs ih =>
    rw [List.any_cons]
    constructor
    · intro h
      rw [Bool.or_eq_false_iff] at h
      intro w hw
      rcases List.mem_cons.mp hw with hv | hv
      · subst hv
        cases hv0 : w.isEmpty with
        | true =>
          cases w with
          | nil => rfl
          | cons a l => exact absurd hv0 (by simp [List.isEmpty])
        | false =>
          have h1 := h.1
          rw [hv0] at h1
          simp at h1
          exact h1
      · exact (ih.mp h.2) w hv
    · intro h
      rw [Bool.or_eq_false_iff]
      constructor
      · have hv := h v (List.mem_cons_self v vs)
        rw [hv]
        simp
      · exact ih.mpr (fun w hw => h w (List.mem_cons_of_mem v hw))

/-- C5: the settled intersection response produces exactly three
outcomes.  Zero features: an informational message embedding the queried
feature's rendered coordinates is shown and the office card is left
untouched.  A first feature all of whose extracted fields are blank
after trimming: the fixed "no service found" message is shown and the
card is left untouched.  Otherwise the first feature's extracted record
is rendered into the office card and shown, leaving the error region
untouched; and blankness of all fields is exactly the negation of the
code's `hasValidInfo` test. -/
theorem C5_office_outcomes :
    (∀ (f : FTSFeature) (ui : Ui),
      officeSuccessUi f [] ui =
        { ui with errHidden := false, errText := coordsMsgText ++ f.coords }) ∧
    (∀ (f : FTSFeature) (p : GSRProps) (rest : List GSRProps) (ui : Ui),
      hasValidInfo (extractOfficeInfo p) = false →
      officeSuccessUi f (p :: rest) ui =
        { ui with errHidden := false, errText := invalidMsg }) ∧
    (∀ (f : FTSFeature) (p : GSRProps) (rest : List GSRProps) (ui : Ui),
      hasValidInfo (extractOfficeInfo p) = true →
      officeSuccessUi f (p :: rest) ui =
        { ui with cardHidden := false,
                  cardHtml := officeCardHtml (extractOfficeInfo p) }) ∧
    (∀ p : GSRProps,
      hasValidInfo (extractOfficeInfo p) = false ↔
        ∀ v ∈ officeFields (extractOfficeInfo p), jsTrim v = []) := by
  refine ⟨fun f ui => rfl, ?_, ?_, ?_⟩
  · intro f p rest ui h
    rw [officeSuccessUi]
    rw [h]
    rfl
  · intro f p rest ui h
    rw [officeSuccessUi]
    rw [h]
    rfl
  · intro p
    exact blank_any_false (officeFields (extractOfficeInfo p))

theorem C5_office_outcomes_w :
    officeSuccessUi exPlace [] {} =
      { ({} : Ui) with errHidden := false,
                       errText := coordsMsgText ++ exPlace.coords } ∧
    officeSuccessUi exPlace [exBlankProps] {} =
      { ({} : Ui) with errHidden := false, errText := invalidMsg } ∧
    officeSuccessUi exPlace [exGoodProps] {} =
      { ({} : Ui) with cardHidden := false,
                       cardHtml := officeCardHtml (extractOfficeInfo exGoodProps) } ∧
    (hasValidInfo (extractOfficeInfo exBlankProps) = false ↔
      ∀ v ∈ officeFields (extractOfficeInfo exBlankProps), jsTrim v = []) :=
  ⟨C5_office_outcomes.1 exPlace {},
   C5_office_outcomes.2.1 exPlace exBlankProps [] {} (by decide),
   C5_office_outcomes.2.2.1 exPlace exGoodProps [] {} (by decide),
   C5_office_outcomes.2.2.2 exBlankProps⟩

theorem searchRespond_stale (g : Nat) (r : Except Unit (List FTSFeature))
    (s : MState) (h : ¬ g = s.searchGen) : (searchRespondM g r s).ui = s.ui := by
  simp only [searchRespondM]
  by_cases hm : g ∈ s.pendingSearch
  · rw [if_pos hm, if_neg h]
  · rw [if_neg hm]

theorem stepM_gen_mono (s : MState) (e : Ev) :
    s.searchGen ≤ (stepM s e).searchGen := by
  cases e with
  | input raw =>
    show s.searchGen ≤ (handleSearchInputM raw s).searchGen
    simp only [handleSearchInputM]
    split <;> exact Nat.le_refl _
  | timerFire =>
    cases ht : s.pendingTimer with
    | none => simp only [stepM, ht]; exact Nat.le_refl _
    | some q => simp only [stepM, ht]; exact Nat.le_succ _
  | focus =>
    show s.searchGen ≤
      (if 3 ≤ (jsTrim s.ui.inputValue).length then performSearchM s else s).searchGen
    split
    · exact Nat.le_succ _
    · exact Nat.le_refl _
  | blurTimeout => exact Nat.le_refl _
  | outsideClick => exact Nat.le_refl _
  | suggestionClick f => exact Nat.le_refl _
  | searchResponse g r =>
    show s.searchGen ≤ (searchRespondM g r s).searchGen
    simp only [searchRespondM, displaySuggestionsM]
    repeat' split
    all_goals exact Nat.le_refl _
  | officeResponse id r =>
    show s.searchGen ≤ (officeRespondM id r s).searchGen
    simp only [officeRespondM, officeSuccessUi]
    repeat' split
    all_goals exact Nat.le_refl _

theorem runM_gen_mono (s : MState) :
    ∀ evs : List Ev, s.searchGen ≤ (runM s evs).searchGen := by
  intro evs
  induction evs generalizing s with
  | nil => exact Nat.le_refl _
  | cons e es ih => exact Nat.le_trans (stepM_gen_mono s e) (ih (stepM s e))

/-- C1: a search response whose generation is not the current one — in
particular the first of two overlapping searches, whose generation stays
strictly below the current one forever by monotonicity — leaves the
entire visible state (suggestions, error, office card, input, tooltip)
unchanged, whether it settled with success or failure: its
`AbortController` was aborted, the promise settles with `AbortError`,
and the `catch` swallows it. -/
theorem C1_stale_search_swallowed :
    (∀ (s : MState) (evs : List Ev) (g : Nat)
        (r : Except Unit (List FTSFeature)),
      ¬ g = (runM s evs).searchGen →
      (stepM (runM s evs) (.searchResponse g r)).ui = (runM s evs).ui) ∧
    (∀ (s : MState) (evs : List Ev), s.searchGen ≤ (runM s evs).searchGen) :=
  ⟨fun s evs g r h => searchRespond_stale g r (runM s evs) h,
   fun s evs => runM_gen_mono s evs⟩

theorem C1_stale_search_swallowed_w :
    (stepM (runM initState []) (.searchResponse 1 (.ok []))).ui =
      (runM initState []).ui ∧
    initState.searchGen ≤ (runM initState [.focus]).searchGen :=
  ⟨C1_stale_search_swallowed.1 initState [] 1 (.ok []) (by decide),
   C1_stale_search_swallowed.2 initState [.focus]⟩

/-- C7: an input event whose trimmed text is shorter than 3 characters
issues no network call and arms no timer (the machine state outside the
visible region is unchanged, and the pending debounce timer is
cancelled), and hides the suggestions dropdown synchronously within the
same handler, besides echoing the value, hiding error and office card
and updating the tooltip. -/
theorem C7_short_input (s : MState) (raw : Str)
    (h : (jsTrim raw).length < 3) :
    stepM s (.input raw) =
      { s with
          pendingTimer := none,
          ui := { s.ui with
                    inputValue := raw, errHidden := true, cardHidden := true,
                    tooltipHidden := !(jsTrim raw).isEmpty,
                    sugHidden := true } } := by
  show handleSearchInputM raw s = _
  simp only [handleSearchInputM]
  rw [if_pos h]

theorem C7_short_input_w :
    stepM initState (.input (str "ab")) =
      { initState with
          pendingTimer := none,
          ui := { initState.ui with
                    inputValue := str "ab", errHidden := true,
                    cardHidden := true,
                    tooltipHidden := !(jsTrim (str "ab")).isEmpty,
                    sugHidden := true } } :=
  C7_short_input initState (str "ab") (by decide)

/-- C8 (amended): the click handler synchronously hides the suggestions
dropdown, hides the error, echoes the chosen label into the input and
issues the office request — but it does not clear a previously shown
office card: the card's visibility and content are untouched until the
office response arrives. -/
theorem C8_click_amended (s : MState) (f : FTSFeature) :
    stepM s (.suggestionClick f) =
      { s with
          officeCtr := s.officeCtr + 1,
          pendingOffice := s.pendingOffice ++ [(s.officeCtr + 1, f)],
          ui := { s.ui with
                    sugHidden := true, errHidden := true,
                    inputValue := f.properties.label } } ∧
    (stepM s (.suggestionClick f)).ui.cardHidden = s.ui.cardHidden ∧
    (stepM s (.suggestionClick f)).ui.cardHtml = s.ui.cardHtml :=
  ⟨rfl, rfl, rfl⟩

/-- C8 (counterexample): after the final suggestion click of `c8trace`
the office card from the previous selection is still visible while the
new office request is outstanding — the handler did not clear the prior
office-card display. -/
theorem C8_click_cex :
    (runM initState (c8trace.take 5)).ui.cardHidden = false ∧
    (runM initState c8trace).ui.cardHidden = false ∧
    (runM initState c8trace).pendingOffice = [(2, exPlace)] := by decide

/-- C9 (amended): an outside click or the blur timeout changes nothing
but the dropdown's visibility; but the office card and the error are
hidden by every input event — including a keystroke whose trimmed text
is below the threshold, which starts no search. -/
theorem C9_dismissal_amended :
    (∀ s : MState,
      stepM s .outsideClick = { s with ui := { s.ui with sugHidden := true } } ∧
      stepM s .blurTimeout = { s with ui := { s.ui with sugHidden := true } }) ∧
    (∀ (s : MState) (raw : Str),
      (stepM s (.input raw)).ui.errHidden = true ∧
      (stepM s (.input raw)).ui.cardHidden = true) := by
  refine ⟨fun s => ⟨rfl, rfl⟩, fun s raw => ?_⟩
  show (handleSearchInputM raw s).ui.errHidden = true ∧
    (handleSearchInputM raw s).ui.cardHidden = true
  simp only [handleSearchInputM]
  split <;> exact ⟨rfl, rfl⟩

/-- C9 (counterexample): with an office card showing, the keystroke
`"ab"` (trimmed length 2 — it starts no search: no timer armed, no
fetch issued) hides the office card immediately, contradicting
"persists until the next search starts". -/
theorem C9_dismissal_cex :
    (runM initState c9trace).ui.cardHidden = false ∧
    (stepM (runM initState c9trace) (.input (str "ab"))).ui.cardHidden = true ∧
    (stepM (runM initState c9trace) (.input (str "ab"))).pendingTimer = none ∧
    (stepM (runM initState c9trace) (.input (str "ab"))).searchGen =
      (runM initState c9trace).searchGen ∧
    (stepM (runM initState c9trace) (.input (str "ab"))).pendingSearch =
      (runM initState c9trace).pendingSearch := by decide

theorem SInv_perform (s : MState) (h : SInv s) : SInv (performSearchM s) := by
  obtain ⟨hn, hb⟩ := h
  constructor
  · show (s.pendingSearch ++ [s.searchGen + 1]).Nodup
    refine List.nodup_append.mpr ⟨hn, List.nodup_singleton _, ?_⟩
    intro a ha hmem
    rw [List.mem_singleton] at hmem
    subst hmem
    exact absurd (hb _ ha) (by omega)
  · intro g hg
    have hg' : g ∈ s.pendingSearch ++ [s.searchGen + 1] := hg
    show g ≤ s.searchGen + 1
    rcases List.mem_append.mp hg' with h1 | h1
    · exact Nat.le_trans (hb g h1) (Nat.le_succ _)
    · rw [List.mem_singleton] at h1
      subst h1
      exact Nat.le_refl _

theorem SInv_step (s : MState) (e : Ev) (h : SInv s) : SInv (stepM s e) := by
  obtain ⟨hn, hb⟩ := h
  cases e with
  | input raw =>
    show SInv (handleSearchInputM raw s)
    simp only [handleSearchInputM]
    split
    · exact ⟨hn, hb⟩
    · exact ⟨hn, hb⟩
  | timerFire =>
    cases ht : s.pendingTimer with
    | none => simp only [stepM, ht]; exact ⟨hn, hb⟩
    | some q => simp only [stepM, ht]; exact SInv_perform _ ⟨hn, hb⟩
  | focus =>
    show SInv (if 3 ≤ (jsTrim s.ui.inputValue).length then performSearchM s else s)
    split
    · exact SInv_perform s ⟨hn, hb⟩
    · exact ⟨hn, hb⟩
  | blurTimeout => exact ⟨hn, hb⟩
  | outsideClick => exact ⟨hn, hb⟩
  | suggestionClick f => exact ⟨hn, hb⟩
  | searchResponse g r =>
    have hne : (s.pendingSearch.erase g).Nodup := hn.erase g
    have hbe : ∀ x ∈ s.pendingSearch.erase g, x ≤ s.searchGen :=
      fun x hx => hb x (List.erase_subset g s.pendingSearch hx)
    show SInv (searchRespondM g r s)
    simp only [searchRespondM, displaySuggestionsM]
    repeat' split
    all_goals first
      | exact ⟨hne, hbe⟩
      | exact ⟨hn, hb⟩
  | officeResponse id r =>
    show SInv (officeRespondM id r s)
    simp only [officeRespondM, officeSuccessUi]
    repeat' split
    all_goals exact ⟨hn, hb⟩

theorem SInv_run (s : MState) (h : SInv s) :
    ∀ evs : List Ev, SInv (runM s evs) := by
  intro evs
  induction evs generalizing s with
  | nil => exact h
  | cons e es ih => exact ih (stepM s e) (SInv_step s e h)

theorem nodup_filter_le_one (l : List Nat) (x : Nat) (h : l.Nodup) :
    (l.filter (fun g => g == x)).length ≤ 1 := by
  induction l with
  | nil => exact Nat.le_succ 0
  | cons a t ih =>
    rw [List.nodup_cons] at h
    by_cases ha : a = x
    · subst ha
      have hnil : t.filter (fun g => g == a) = [] := by
        rw [List.filter_eq_nil_iff]
        intro b hb
        simp only [beq_iff_eq]
        intro hba
        exact h.1 (hba ▸ hb)
      rw [List.filter_cons_of_pos (by simp), hnil]
      exact Nat.le_refl 1
    · rw [List.filter_cons_of_neg (by simp [ha])]
      exact ih h.2

/-- C3 (amended): the search stage satisfies the one-outstanding-request
discipline — at every reachable state at most one unsettled search fetch
is non-aborted, and starting a new search aborts every outstanding
search generation (all of them become stale) before the new fetch is
issued.  The office stage has no such mechanism: an outstanding
office-resolve request survives every event except its own settlement —
in particular neither a new search nor a new office lookup cancels or
supersedes it — so several can be outstanding at once. -/
theorem C3_request_slots_amended :
    (∀ evs : List Ev, liveSearchCount (runM initState evs) ≤ 1) ∧
    (∀ (evs : List Ev) (g : Nat),
      g ∈ (runM initState evs).pendingSearch →
      ¬ g = (performSearchM (runM initState evs)).searchGen) ∧
    (∀ (s : MState) (e : Ev) (id : Nat) (f : FTSFeature),
      (id, f) ∈ s.pendingOffice →
      (∀ r, e ≠ Ev.officeResponse id r) →
      (id, f) ∈ (stepM s e).pendingOffice) := by
  have h0 : SInv initState :=
    ⟨List.nodup_nil, fun g hg => absurd hg (List.not_mem_nil g)⟩
  refine ⟨?_, ?_, ?_⟩
  · intro evs
    exact nodup_filter_le_one _ _ (SInv_run initState h0 evs).1
  · intro evs g hmem
    have hb := (SInv_run initState h0 evs).2 g hmem
    show ¬ g = (runM initState evs).searchGen + 1
    omega
  · intro s e id f hmem hne
    cases e with
    | input raw =>
      show (id, f) ∈ (handleSearchInputM raw s).pendingOffice
      simp only [handleSearchInputM]
      split <;> exact hmem
    | timerFire =>
      cases ht : s.pendingTimer with
      | none => simp only [stepM, ht]; exact hmem
      | some q => simp only [stepM, ht]; exact hmem
    | focus =>
      show (id, f) ∈
        (if 3 ≤ (jsTrim s.ui.inputValue).length then performSearchM s else s).pendingOffice
      split <;> exact hmem
    | blurTimeout => exact hmem
    | outsideClick => exact hmem
    | suggestionClick f2 =>
      show (id, f) ∈ s.pendingOffice ++ [(s.officeCtr + 1, f2)]
      exact List.mem_append_left _ hmem
    | searchResponse g r =>
      show (id, f) ∈ (searchRespondM g r s).pendingOffice
      simp only [searchRespondM, displaySuggestionsM]
      repeat' split
      all_goals exact hmem
    | officeResponse id2 r =>
      have hid : ¬ id2 = id := fun hEq => hne r (by rw [hEq])
      show (id, f) ∈ (officeRespondM id2 r s).pendingOffice
      simp only [officeRespondM, officeSuccessUi]
      repeat' split
      all_goals first
        | exact hmem
        | exact List.mem_filter.mpr
            ⟨hmem, by simp only [bne_iff_ne]; exact fun h => hid h.symm⟩

theorem C3_request_slots_amended_w :
    liveSearchCount (runM initState []) ≤ 1 ∧
    ¬ (1 : Nat) =
      (performSearchM (runM initState
        [.input (str "Neuchatel"), .timerFire])).searchGen ∧
    (1, exPlace) ∈ (stepM (runM initState (c3trace.take 4)) .focus).pendingOffice :=
  ⟨C3_request_slots_amended.1 [],
   C3_request_slots_amended.2.1 [.input (str "Neuchatel"), .timerFire] 1 (by decide),
   C3_request_slots_amended.2.2 (runM initState (c3trace.take 4)) .focus 1 exPlace
     (by decide) (fun r h => nomatch h)⟩

/-- C3 (counterexample): at the end of `c3trace` two office-resolve
requests are outstanding simultaneously, and neither was cancelled —
the intersection fetch carries no abort signal. -/
theorem C3_request_slots_cex :
    (runM initState (c3trace.take 3)).ui.sugHidden = false ∧
    (runM initState (c3trace.take 6)).ui.sugHidden = false ∧
    (runM initState c3trace).pendingOffice = [(1, exPlace), (2, exPlace)] ∧
    (runM initState c3trace).pendingOffice.length = 2 := by decide

theorem gateFlush_skip (t : Nat) (s : GateState)
    (h : ∀ d q, s.pending = some (d, q) → t < d) : gateFlush t s = s := by
  cases hp : s.pending with
  | none => rw [gateFlush, hp]
  | some dq =>
    obtain ⟨d, q⟩ := dq
    have hlt := h d q hp
    rw [gateFlush, hp]
    show (if d ≤ t then
        ({ pending := none, fired := s.fired ++ [q] } : GateState) else s) = s
    rw [if_neg (by omega)]

theorem runGate_quiet :
    ∀ (es : List (Nat × Str)) (t : Nat) (raw : Str) (s : GateState),
      (∀ p ∈ (t, raw) :: es, 3 ≤ (jsTrim p.2).length) →
      withinWindow ((t, raw) :: es) = true →
      (∀ d q, s.pending = some (d, q) → t < d) →
      runGate s ((t, raw) :: es) =
        { pending := some ((((t, raw) :: es).getLast (List.cons_ne_nil _ _)).1 + 300,
            jsTrim (((t, raw) :: es).getLast (List.cons_ne_nil _ _)).2),
          fired := s.fired } := by
  intro es
  induction es with
  | nil =>
    intro t raw s hlong _ hpend
    have h1 : 3 ≤ (jsTrim raw).length := hlong (t, raw) (List.mem_cons_self _ _)
    have hge : ¬ (jsTrim raw).length < 3 := by omega
    rw [runGate, gateFlush_skip t s hpend, runGate, gateInput, if_neg hge]
    rfl
  | cons e2 es2 ih =>
    intro t raw s hlong hwin hpend
    obtain ⟨t2, raw2⟩ := e2
    rw [withinWindow, Bool.and_eq_true] at hwin
    have hgap : t2 < t + 300 := of_decide_eq_true hwin.1
    have h1 : 3 ≤ (jsTrim raw).length := hlong (t, raw) (List.mem_cons_self _ _)
    have hge : ¬ (jsTrim raw).length < 3 := by omega
    rw [runGate, gateFlush_skip t s hpend, gateInput, if_neg hge]
    have hlong' : ∀ p ∈ (t2, raw2) :: es2, 3 ≤ (jsTrim p.2).length :=
      fun p hp => hlong p (List.mem_cons_of_mem _ hp)
    have hpend' : ∀ d q,
        ({ s with pending := some (t + 300, jsTrim raw) } : GateState).pending =
          some (d, q) → t2 < d := by
      intro d q hdq
      simp only [Option.some.injEq, Prod.mk.injEq] at hdq
      omega
    have ihres := ih t2 raw2 { s with pending := some (t + 300, jsTrim raw) }
      hlong' hwin.2 hpend'
    rw [ihres]
    rw [List.getLast_cons (List.cons_ne_nil (t2, raw2) es2)]

/-- C4: a non-empty burst of input events, all trimming to length ≥ 3
and each arriving strictly within 300 ms of its predecessor, fires no
search during the burst; every event cancels the previous timer and
re-arms it with its own deadline and trimmed text (so the pending timer
ends up holding the last event's data); and after the quiet period
exactly one search fires, with the last event's trimmed text. -/
theorem C4_debounce (t : Nat) (raw : Str) (es : List (Nat × Str))
    (hlong : ∀ p ∈ (t, raw) :: es, 3 ≤ (jsTrim p.2).length)
    (hwin : withinWindow ((t, raw) :: es) = true) :
    (runGate gateInit ((t, raw) :: es)).fired = [] ∧
    (runGate gateInit ((t, raw) :: es)).pending =
      some ((((t, raw) :: es).getLast (List.cons_ne_nil _ _)).1 + 300,
        jsTrim (((t, raw) :: es).getLast (List.cons_ne_nil _ _)).2) ∧
    (gateFinish (runGate gateInit ((t, raw) :: es))).fired =
      [jsTrim (((t, raw) :: es).getLast (List.cons_ne_nil _ _)).2] := by
  have h := runGate_quiet es t raw gateInit hlong hwin
    (by intro d q hdq; simp [gateInit] at hdq)
  rw [h]
  exact ⟨rfl, rfl, rfl⟩

theorem C4_debounce_w :
    (runGate gateInit [(0, str "Neuch"), (100, str " Neuchat ")]).fired = [] ∧
    (runGate gateInit [(0, str "Neuch"), (100, str " Neuchat ")]).pending =
      some ((([(0, str "Neuch"), (100, str " Neuchat ")]).getLast
          (List.cons_ne_nil _ _)).1 + 300,
        jsTrim (([(0, str "Neuch"), (100, str " Neuchat ")]).getLast
          (List.cons_ne_nil _ _)).2) ∧
    (gateFinish (runGate gateInit [(0, str "Neuch"), (100, str " Neuchat ")])).fired =
      [jsTrim (([(0, str "Neuch"), (100, str " Neuchat ")]).getLast
          (List.cons_ne_nil _ _)).2] :=
  C4_debounce 0 (str "Neuch") [(100, str " Neuchat ")] (by decide) (by decide)
